import Mathlib

/-!
Verification of the Matching & Ranking Engine of the AI Resume Manager
backend (src/backend/main.py), as a shallow embedding.

Python strings are sequences of code points, modelled by Lean `String`
with all operations defined on the underlying `List Char` (`String.data`).
Machine floats of the similarity pipeline are modelled by `ℚ`.
The sentence-embedding model together with the cosine-similarity call is
an opaque effectful step; it is abstracted as a function
`String → String → Option ℚ`, where `none` models an exception raised
inside the corresponding `try` block.
MongoDB collections are modelled as insertion-ordered lists inside a
`DBState`; ObjectIds assigned by the database are modelled by a counter.
-/

namespace ResumeManager

/-- Python `len(s)` (number of code points). -/
def pyLen (s : String) : Nat := s.data.length

/-- Python slice `s[:n]`. -/
def pyTake (s : String) (n : Nat) : String := String.mk (s.data.take n)

/-- Leading and trailing whitespace removal on a character list. -/
def stripCore (l : List Char) : List Char :=
  ((l.dropWhile Char.isWhitespace).reverse.dropWhile Char.isWhitespace).reverse

/-- Python `s.strip()`. -/
def pyStrip (s : String) : String := String.mk (stripCore s.data)

/-- Does `hay` start with `needle`? -/
def beginsWith : List Char → List Char → Bool
  | [], _ => true
  | _ :: _, [] => false
  | a :: as, b :: bs => a == b && beginsWith as bs

/-- Python substring test `needle in hay`, on character lists. -/
def hasSub (needle : List Char) : List Char → Bool
  | [] => needle.isEmpty
  | c :: rest => beginsWith needle (c :: rest) || hasSub needle rest

/-- Embedded from `calculate_similarity` (src/backend/main.py lines 148-162).
`cosine` abstracts `sentence_model.encode` plus `cosine_similarity`; a
`none` result models an exception inside the `try` block, answered by the
`except` handler with `0.0`.  An empty job description or resume text is
answered with `0.0` before the model is consulted, and the raw metric is
clamped by `max(0.0, min(1.0, float(similarity)))`. -/
def calculate_similarity (cosine : String → String → Option ℚ)
    (job_description resume_text : String) : ℚ :=
  if job_description.data.isEmpty || resume_text.data.isEmpty then 0
  else
    match cosine job_description resume_text with
    | some s => max 0 (min 1 s)
    | none => 0

/-- Upload-response preview, embedded from src/backend/main.py line 269:
`(text[:197].strip() + "...") if len(text) > 200 else text.strip()`. -/
def uploadTextPreview (text : String) : String :=
  if 200 < pyLen text then pyStrip (pyTake text 197) ++ "..." else pyStrip text

/-- Analysis-response preview, embedded from src/backend/main.py line 420:
`(text[:300] + "...") if len(text) > 300 else text`. -/
def analysisTextPreview (text : String) : String :=
  if 300 < pyLen text then pyTake text 300 ++ "..." else text

/-- Hexadecimal digit test, as accepted by `bson.ObjectId`. -/
def isHexChar (c : Char) : Bool :=
  c.isDigit || ('a' ≤ c && c ≤ 'f') || ('A' ≤ c && c ≤ 'F')

/-- Numeric value of a hexadecimal digit. -/
def hexVal (c : Char) : Nat :=
  if c.isDigit then c.toNat - '0'.toNat
  else if 'a' ≤ c && c ≤ 'f' then c.toNat - 'a'.toNat + 10
  else c.toNat - 'A'.toNat + 10

/-- `bson.ObjectId(s)` accepts exactly 24 hexadecimal characters; the id is
modelled by its numeric value, and `none` models the `InvalidId` error. -/
def parseOid (s : String) : Option Nat :=
  if s.data.length == 24 && s.data.all isHexChar then
    some (s.data.foldl (fun acc c => 16 * acc + hexVal c) 0)
  else none

/-- A stored candidate document (`db.resumes` record, src/backend/main.py
lines 256-264). -/
structure Resume where
  oid : Nat
  filename : String
  content_type : String
  text : String
  uploaded_by : String
  uploaded_at : Nat
  size : Nat
  content : List Nat
deriving DecidableEq

/-- A stored job specification (`db.jobs` record, lines 371-377). -/
structure Job where
  oid : Nat
  title : String
  description : String
  requirements : String
  created_by : String
  created_at : Nat
deriving DecidableEq

/-- One entry of `ranked_resumes` (lines 416-422). -/
structure RankedEntry where
  id : Nat
  filename : String
  similarity_score : ℚ
  text_preview : String
  uploaded_at : Nat
deriving DecidableEq

/-- A stored analysis snapshot (`db.analyses` record, lines 426-431). -/
structure Analysis where
  oid : Nat
  job_id : Nat
  ranked_resumes : List RankedEntry
  analyzed_by : String
  analyzed_at : Nat
deriving DecidableEq

/-- The database: insertion-ordered collections plus the ObjectId counter. -/
structure DBState where
  resumes : List Resume
  jobs : List Job
  analyses : List Analysis
  nextOid : Nat
deriving DecidableEq

/-- One file of a batch upload request. -/
structure UploadFile where
  filename : String
  content_type : String
  content : List Nat
deriving DecidableEq

/-- Per-file item of a successful upload response (lines 270-274). -/
structure UploadedInfo where
  id : Nat
  filename : String
  text_preview : String
deriving DecidableEq

/-- Successful upload response (line 291). -/
structure UploadResponse where
  message : String
  resumes : List UploadedInfo
deriving DecidableEq

def pdfType : String := "application/pdf"

def docxType : String :=
  "application/vnd.openxmlformats-officedocument.wordprocessingml.document"

def MAX_FILE_SIZE : Nat := 10 * 1024 * 1024

def errMarker : String := "Error extracting"

/-- Text produced by the extraction step for a file (lines 243-247).
`xPdf` and `xDocx` abstract `extract_text_from_pdf` / `extract_text_from_docx`;
both catch every exception internally and return a string beginning with
"Error extracting" on failure, so they are total. -/
def fileText (xPdf xDocx : List Nat → String) (f : UploadFile) : String :=
  if f.content_type == pdfType then xPdf f.content else xDocx f.content

/-- Per-file acceptance test of the upload loop (lines 227-253): an
unsupported content type, empty content, oversized content, or extracted
text containing "Error extracting" each lead to `continue`. -/
def fileAccepted (xPdf xDocx : List Nat → String) (f : UploadFile) : Bool :=
  (f.content_type == pdfType || f.content_type == docxType)
    && !f.content.isEmpty
    && decide (f.content.length ≤ MAX_FILE_SIZE)
    && !hasSub errMarker.data (fileText xPdf xDocx f).data

/-- The document inserted into `db.resumes` for an accepted file
(lines 256-264). -/
def mkResume (xPdf xDocx : List Nat → String) (user : String) (now : Nat)
    (oid : Nat) (f : UploadFile) : Resume :=
  { oid := oid, filename := f.filename, content_type := f.content_type,
    text := fileText xPdf xDocx f, uploaded_by := user, uploaded_at := now,
    size := f.content.length, content := f.content }

/-- The `for file in files` loop of `upload_resumes` (lines 224-283),
returning the inserted documents and the per-file response items. -/
def uploadLoop (xPdf xDocx : List Nat → String) (user : String) (now : Nat) :
    List UploadFile → Nat → List Resume × List UploadedInfo
  | [], _ => ([], [])
  | f :: rest, oid =>
    if fileAccepted xPdf xDocx f then
      let doc := mkResume xPdf xDocx user now oid f
      let next := uploadLoop xPdf xDocx user now rest (oid + 1)
      (doc :: next.1,
       { id := oid, filename := f.filename,
         text_preview := uploadTextPreview doc.text } :: next.2)
    else uploadLoop xPdf xDocx user now rest oid

/-- Embedded from `upload_resumes` (lines 214-291). `Except.error 400`
models the `HTTPException` raised when no file was processed. -/
def upload_resumes (xPdf xDocx : List Nat → String) (user : String)
    (now : Nat) (files : List UploadFile) (st : DBState) :
    Except Nat UploadResponse × DBState :=
  let out := uploadLoop xPdf xDocx user now files st.nextOid
  if out.2.isEmpty then (Except.error 400, st)
  else
    (Except.ok
      { message := "Successfully processed " ++ toString out.2.length
          ++ " resume(s)",
        resumes := out.2 },
     { st with resumes := st.resumes ++ out.1,
               nextOid := st.nextOid + out.1.length })

/-- Outcome of `delete_resume`; `badRequest` models the 400 response for an
id that does not parse, `forbidden` the 403, `notFound` the 404. -/
inductive DeleteResult where
  | ok
  | badRequest
  | forbidden
  | notFound
deriving DecidableEq

/-- Embedded from `delete_resume` (lines 312-330): `delete_one` filters on
both `_id` and `uploaded_by`; when nothing was deleted, a bare `_id` count
distinguishes 403 from 404. -/
def delete_resume (user rid : String) (st : DBState) :
    DeleteResult × DBState :=
  match parseOid rid with
  | none => (DeleteResult.badRequest, st)
  | some oid =>
    if st.resumes.any (fun r => r.oid == oid && r.uploaded_by == user) then
      (DeleteResult.ok,
       { st with resumes :=
          st.resumes.eraseP (fun r => r.oid == oid && r.uploaded_by == user) })
    else if st.resumes.any (fun r => r.oid == oid) then
      (DeleteResult.forbidden, st)
    else (DeleteResult.notFound, st)

/-- Body of a `/jobs/analyze` request (`JobDescription`, lines 80-84). -/
structure JobRequest where
  title : String
  description : String
  requirements : String
  resume_ids : Option (List String)
deriving DecidableEq

/-- Candidate resolution of `analyze_job` (lines 382-403).
`if job_request.resume_ids:` is Python truthiness: both `None` and the
empty list take the unfiltered branch.  Invalid ids are dropped by
`filterMap parseOid`; when every id is invalid the query carries
`{"_id": {"$in": []}}`, which matches nothing, exactly as an empty
`object_ids` list does here. -/
def resolveCandidates (st : DBState) (user : String)
    (resume_ids : Option (List String)) : List Resume :=
  match resume_ids with
  | none => st.resumes.filter (fun r => r.uploaded_by == user)
  | some rids =>
    if rids.isEmpty then st.resumes.filter (fun r => r.uploaded_by == user)
    else
      let object_ids := rids.filterMap parseOid
      st.resumes.filter
        (fun r => r.uploaded_by == user && object_ids.contains r.oid)

/-- `job_text = f"{title} {description} {requirements}"` (line 412). -/
def jobText (req : JobRequest) : String :=
  req.title ++ " " ++ req.description ++ " " ++ req.requirements

/-- The scoring loop of `analyze_job` (lines 413-422), in candidate
resolution order. -/
def rankEntries (cosine : String → String → Option ℚ) (req : JobRequest)
    (resumes : List Resume) : List RankedEntry :=
  resumes.map (fun r =>
    { id := r.oid, filename := r.filename,
      similarity_score := calculate_similarity cosine (jobText req) r.text,
      text_preview := analysisTextPreview r.text,
      uploaded_at := r.uploaded_at })

/-- Order used by `ranked_resumes.sort(key=lambda x: x["similarity_score"],
reverse=True)` (line 423): score descending. -/
def scoreGE (a b : RankedEntry) : Prop :=
  b.similarity_score ≤ a.similarity_score

instance : DecidableRel scoreGE := fun a b =>
  inferInstanceAs (Decidable (b.similarity_score ≤ a.similarity_score))

instance : IsTotal RankedEntry scoreGE :=
  ⟨fun a b => le_total b.similarity_score a.similarity_score⟩

instance : IsTrans RankedEntry scoreGE :=
  ⟨fun _ _ _ hab hbc => le_trans hbc hab⟩

/-- Response of `/jobs/analyze` (lines 434-438). -/
structure AnalyzeResponse where
  job_id : Nat
  total_resumes : Nat
  ranked_resumes : List RankedEntry
deriving DecidableEq

/-- Embedded from `analyze_job` (lines 368-438): insert the job, resolve
the candidate set, score and sort it (Python `list.sort` is stable,
modelled by the stable `List.insertionSort`), persist the snapshot, and
return the ranking. -/
def analyze_job (cosine : String → String → Option ℚ) (user : String)
    (now : Nat) (req : JobRequest) (st : DBState) :
    AnalyzeResponse × DBState :=
  let jobOid := st.nextOid
  let newJob : Job :=
    { oid := jobOid, title := req.title, description := req.description,
      requirements := req.requirements, created_by := user,
      created_at := now }
  let st1 : DBState :=
    { st with jobs := st.jobs ++ [newJob], nextOid := st.nextOid + 1 }
  let ranked :=
    (rankEntries cosine req (resolveCandidates st1 user req.resume_ids)).insertionSort scoreGE
  let snap : Analysis :=
    { oid := st1.nextOid, job_id := jobOid, ranked_resumes := ranked,
      analyzed_by := user, analyzed_at := now }
  let st2 : DBState :=
    { st1 with analyses := st1.analyses ++ [snap],
               nextOid := st1.nextOid + 1 }
  ({ job_id := jobOid, total_resumes := ranked.length,
     ranked_resumes := ranked }, st2)

/-- One entry of a history item's `rankedResumes` (`$map` step of the
aggregation pipeline, lines 663-674). -/
structure HistoryRankedEntry where
  id : Nat
  filename : String
  similarity_score : ℚ
deriving DecidableEq

/-- One item of the `/analyses/history` response (lines 657-681). -/
structure HistoryEntry where
  analysisId : Nat
  jobTitle : String
  analyzedAt : Nat
  rankedResumes : List HistoryRankedEntry
deriving DecidableEq

/-- `$sort: {analyzed_at: -1}` order (line 619): newest first. -/
def newerFirst (a b : Analysis) : Prop := b.analyzed_at ≤ a.analyzed_at

instance : DecidableRel newerFirst := fun a b =>
  inferInstanceAs (Decidable (b.analyzed_at ≤ a.analyzed_at))

/-- The `$map` projection applied to each ranking entry (lines 664-673);
it keeps the entries in place. -/
def projectEntry (r : RankedEntry) : HistoryRankedEntry :=
  { id := r.id, filename := r.filename,
    similarity_score := r.similarity_score }

/-- Embedded from the `get_analysis_history` pipeline (lines 609-689):
match the owner, sort snapshots newest first, join the job title with the
sentinel for a missing job, and project each snapshot's entries in order. -/
def get_analysis_history (user : String) (st : DBState) :
    List HistoryEntry :=
  ((st.analyses.filter (fun a => a.analyzed_by == user)).insertionSort newerFirst).map
    (fun a =>
      { analysisId := a.oid,
        jobTitle :=
          match st.jobs.find? (fun j => j.oid == a.job_id) with
          | some j => j.title
          | none => "Job Title Not Found",
        analyzedAt := a.analyzed_at,
        rankedResumes := a.ranked_resumes.map projectEntry })

/-- The snapshot persisted by `analyze_job` when the resolved candidate
set is empty: it references the freshly inserted job and carries no
entries. -/
def emptySnap (user : String) (now jobOid : Nat) : Analysis :=
  { oid := jobOid + 1, job_id := jobOid, ranked_resumes := [],
    analyzed_by := user, analyzed_at := now }

/-- The 301-character text used to exercise the truncating branches. -/
def longText : String := String.mk (List.replicate 301 'b')

/-- Extractor that always fails, as PyPDF2 failure is reported. -/
def xFail : List Nat → String :=
  fun _ => "Error extracting PDF text: EOF marker not found"

/-- Extractor that succeeds with ordinary text. -/
def xOk : List Nat → String := fun _ => "plain resume body"

/-- Extractor that succeeds, with the marker as legitimate content. -/
def xLegit : List Nat → String :=
  fun _ => "I fixed the Error extracting bug at Acme Corp"

def fPdf : UploadFile :=
  { filename := "bad.pdf", content_type := pdfType, content := [1] }

def gDocx : UploadFile :=
  { filename := "good.docx", content_type := docxType, content := [2] }

def fTxt : UploadFile :=
  { filename := "a.txt", content_type := "text/plain", content := [1, 2] }

def st0 : DBState :=
  { resumes := [], jobs := [], analyses := [], nextOid := 0 }

def rAlice : Resume :=
  { oid := 5, filename := "cv.pdf", content_type := pdfType, text := "t",
    uploaded_by := "alice", uploaded_at := 1, size := 1, content := [1] }

def stAlice : DBState :=
  { resumes := [rAlice], jobs := [], analyses := [], nextOid := 6 }

def hex5 : String := "000000000000000000000005"

def hex9 : String := "000000000000000000000009"

def reqNone : JobRequest :=
  { title := "t", description := "d", requirements := "q",
    resume_ids := none }

def cosOne : String → String → Option ℚ := fun _ _ => some 1

def rA : Resume :=
  { oid := 1, filename := "a.pdf", content_type := pdfType,
    text := "alpha", uploaded_by := "u", uploaded_at := 1, size := 1,
    content := [1] }

def rB : Resume :=
  { oid := 2, filename := "b.pdf", content_type := pdfType,
    text := "beta", uploaded_by := "u", uploaded_at := 2, size := 1,
    content := [2] }

def stAB : DBState :=
  { resumes := [rA, rB], jobs := [], analyses := [], nextOid := 3 }

/-- The snapshot persisted by one `analyze_job` call, as stored in
`db.analyses`. -/
def newSnap (cosine : String → String → Option ℚ) (user : String)
    (now : Nat) (req : JobRequest) (st : DBState) : Analysis :=
  { oid := st.nextOid + 1, job_id := st.nextOid,
    ranked_resumes := (analyze_job cosine user now req st).1.ranked_resumes,
    analyzed_by := user, analyzed_at := now }

def eA : RankedEntry :=
  { id := 10, filename := "a.pdf", similarity_score := 1,
    text_preview := "p", uploaded_at := 2 }

def eB : RankedEntry :=
  { id := 11, filename := "b.pdf", similarity_score := 0,
    text_preview := "q", uploaded_at := 3 }

def aSnap : Analysis :=
  { oid := 3, job_id := 2, ranked_resumes := [eA, eB],
    analyzed_by := "u", analyzed_at := 9 }

def stH : DBState :=
  { resumes := [], jobs := [], analyses := [aSnap], nextOid := 4 }

def hEnt : HistoryEntry :=
  { analysisId := 3, jobTitle := "Job Title Not Found", analyzedAt := 9,
    rankedResumes := [projectEntry eA, projectEntry eB] }

/-- Two strings with the same characters are equal. -/
theorem string_ext {s t : String} (h : s.data = t.data) : s = t :=
  congrArg String.mk h

/-- Claim C1: for every job text and candidate text pair, and every
behaviour of the embedding model, the score returned by
`calculate_similarity` lies in the closed interval [0, 1]: the cosine
similarity is clamped so that values below 0 map to 0 and values never
exceed 1. -/
theorem calculate_similarity_mem_unitInterval
    (cosine : String → String → Option ℚ) (jd rt : String) :
    0 ≤ calculate_similarity cosine jd rt ∧
      calculate_similarity cosine jd rt ≤ 1 := by
  unfold calculate_similarity
  split
  · exact ⟨le_refl 0, zero_le_one⟩
  · cases cosine jd rt with
    | none => exact ⟨le_refl 0, zero_le_one⟩
    | some s =>
      exact ⟨le_max_left 0 _, max_le zero_le_one (min_le_left 1 s)⟩

/-- Claim C9: `calculate_similarity` is total over all string inputs: an
empty input yields exactly 0 and the result then does not depend on the
embedding model at all (the model is not consulted), and an internal error
of the embedding or scoring step (`cosine` returning `none`) also yields
0, so no exception reaches the ranking pipeline. -/
theorem calculate_similarity_total
    (cosine cosine' : String → String → Option ℚ) (jd rt : String) :
    (jd = "" ∨ rt = "" →
      calculate_similarity cosine jd rt = 0 ∧
        calculate_similarity cosine jd rt =
          calculate_similarity cosine' jd rt) ∧
    (cosine jd rt = none → calculate_similarity cosine jd rt = 0) := by
  have h0 : ("" : String).data.isEmpty = true := rfl
  constructor
  · rintro (rfl | rfl) <;> constructor <;>
      simp [calculate_similarity, h0]
  · intro h
    unfold calculate_similarity
    split
    · rfl
    · rw [h]

/-- Witness for C9 at concrete inputs. -/
theorem calculate_similarity_total_witness :
    calculate_similarity (fun _ _ => some (1 / 2)) "" "abc" = 0 ∧
    calculate_similarity (fun _ _ => none) "job" "cv" = 0 :=
  ⟨((calculate_similarity_total (fun _ _ => some (1 / 2))
      (fun _ _ => none) "" "abc").1 (Or.inl rfl)).1,
   (calculate_similarity_total (fun _ _ => none) (fun _ _ => none)
      "job" "cv").2 rfl⟩

/-- Claim C4 counterexample: for the stored text " a", which is within the
200-character limit, the upload-response preview is "a" (the code strips
surrounding whitespace), not the extracted text verbatim as claimed. -/
theorem uploadTextPreview_not_verbatim :
    pyLen " a" ≤ 200 ∧ uploadTextPreview " a" ≠ " a" := by decide

/-- Claim C4 (amended): the analysis-response preview is the 300-character
prefix followed by "..." when the text exceeds 300 characters, and the
text verbatim otherwise; the upload-response preview is the 197-character
(not 200) prefix stripped of surrounding whitespace followed by "..." when
the text exceeds 200 characters, and the whitespace-stripped (not
verbatim) text otherwise. -/
theorem preview_spec (text : String) :
    (pyLen text ≤ 200 → uploadTextPreview text = pyStrip text) ∧
    (200 < pyLen text →
      ∃ rest, text = pyTake text 197 ++ rest ∧
        pyLen (pyTake text 197) = 197 ∧
        uploadTextPreview text = pyStrip (pyTake text 197) ++ "...") ∧
    (pyLen text ≤ 300 → analysisTextPreview text = text) ∧
    (300 < pyLen text →
      ∃ rest, text = pyTake text 300 ++ rest ∧
        pyLen (pyTake text 300) = 300 ∧
        analysisTextPreview text = pyTake text 300 ++ "...") := by
  refine ⟨?_, ?_, ?_, ?_⟩
  · intro h
    unfold uploadTextPreview
    rw [if_neg (by omega)]
  · intro h
    refine ⟨String.mk (text.data.drop 197), ?_, ?_, ?_⟩
    · exact string_ext (List.take_append_drop 197 text.data).symm
    · simp only [pyLen, pyTake, List.length_take]
      simp only [pyLen] at h
      omega
    · unfold uploadTextPreview
      rw [if_pos h]
  · intro h
    unfold analysisTextPreview
    rw [if_neg (by omega)]
  · intro h
    refine ⟨String.mk (text.data.drop 300), ?_, ?_, ?_⟩
    · exact string_ext (List.take_append_drop 300 text.data).symm
    · simp only [pyLen, pyTake, List.length_take]
      simp only [pyLen] at h
      omega
    · unfold analysisTextPreview
      rw [if_pos h]

/-- The characters of `longText` are the 301-fold repetition of one
character. -/
theorem longText_data : longText.data = List.replicate 301 'b' := rfl

/-- The length of `longText` is 301. -/
theorem longText_len : pyLen longText = 301 := by
  rw [pyLen, longText_data, List.length_replicate]

/-- Witness for the amended C4 at concrete inputs: a short text and a
301-character text. -/
theorem preview_spec_witness :
    (uploadTextPreview "hi" = pyStrip "hi" ∧
      analysisTextPreview "hi" = "hi") ∧
    (∃ rest, longText = pyTake longText 197 ++ rest ∧
      pyLen (pyTake longText 197) = 197 ∧
      uploadTextPreview longText = pyStrip (pyTake longText 197) ++ "...") ∧
    (∃ rest, longText = pyTake longText 300 ++ rest ∧
      pyLen (pyTake longText 300) = 300 ∧
      analysisTextPreview longText = pyTake longText 300 ++ "...") :=
  ⟨⟨(preview_spec "hi").1 (by decide), (preview_spec "hi").2.2.1 (by decide)⟩,
   (preview_spec longText).2.1
     (by rw [longText_len]; omega),
   (preview_spec longText).2.2.2
     (by rw [longText_len]; omega)⟩

/-- A file the loop does not accept contributes nothing: the loop behaves
as if the file were absent from the batch. -/
theorem uploadLoop_skip (xPdf xDocx : List Nat → String) (user : String)
    (now : Nat) (f : UploadFile)
    (hf : fileAccepted xPdf xDocx f = false) :
    ∀ (pre post : List UploadFile) (oid : Nat),
      uploadLoop xPdf xDocx user now (pre ++ f :: post) oid =
        uploadLoop xPdf xDocx user now (pre ++ post) oid := by
  intro pre
  induction pre with
  | nil =>
    intro post oid
    simp [uploadLoop, hf]
  | cons g gs ih =>
    intro post oid
    simp only [List.cons_append, uploadLoop, List.append_eq, ih]

/-- The loop stores exactly one document per response item. -/
theorem uploadLoop_length (xPdf xDocx : List Nat → String) (user : String)
    (now : Nat) :
    ∀ (files : List UploadFile) (oid : Nat),
      (uploadLoop xPdf xDocx user now files oid).1.length =
        (uploadLoop xPdf xDocx user now files oid).2.length := by
  intro files
  induction files with
  | nil => intro oid; rfl
  | cons f rest ih =>
    intro oid
    simp only [uploadLoop]
    split
    · simp [ih]
    · exact ih oid

/-- Claim C5: a document whose text extraction fails is skipped and not
stored — the batch result is exactly as if the document were absent, so
the upload still succeeds for the remaining documents — and the batch
reports failure (HTTP 400) if and only if no document in the batch was
stored. -/
theorem upload_extraction_failure_skipped
    (xPdf xDocx : List Nat → String) (user : String) (now : Nat)
    (pre post : List UploadFile) (st : DBState) (f : UploadFile)
    (hx : hasSub errMarker.data (fileText xPdf xDocx f).data = true) :
    upload_resumes xPdf xDocx user now (pre ++ f :: post) st =
      upload_resumes xPdf xDocx user now (pre ++ post) st ∧
    ((upload_resumes xPdf xDocx user now (pre ++ f :: post) st).1 =
        Except.error 400 ↔
      (upload_resumes xPdf xDocx user now (pre ++ f :: post) st).2.resumes =
        st.resumes) := by
  have hf : fileAccepted xPdf xDocx f = false := by
    simp [fileAccepted, hx]
  constructor
  · unfold upload_resumes
    rw [uploadLoop_skip xPdf xDocx user now f hf]
  · by_cases hemp :
      (uploadLoop xPdf xDocx user now (pre ++ f :: post) st.nextOid).2.isEmpty
    · simp [upload_resumes, hemp]
    · simp only [upload_resumes, hemp, if_false, Bool.false_eq_true]
      constructor
      · intro hcontra
        exact absurd hcontra (by simp)
      · intro hcontra
        have hlenEq := congrArg List.length hcontra
        have hll := uploadLoop_length xPdf xDocx user now
          (pre ++ f :: post) st.nextOid
        simp only [List.length_append] at hlenEq
        have h2 : (uploadLoop xPdf xDocx user now (pre ++ f :: post)
            st.nextOid).2.length = 0 := by omega
        rw [List.length_eq_zero] at h2
        rw [h2] at hemp
        simp at hemp

/-- Claim C10: a document whose extracted text contains the substring
"Error extracting" is treated as an extraction failure and skipped, even
when the extractor actually succeeded and the substring is legitimate
content of the document: uploading such a document alone stores nothing
and the batch reports failure. -/
theorem upload_marker_text_skipped
    (xPdf xDocx : List Nat → String) (user : String) (now : Nat)
    (st : DBState) (f : UploadFile)
    (hx : hasSub errMarker.data (fileText xPdf xDocx f).data = true) :
    upload_resumes xPdf xDocx user now [f] st = (Except.error 400, st) := by
  have hf : fileAccepted xPdf xDocx f = false := by
    simp [fileAccepted, hx]
  simp [upload_resumes, uploadLoop, hf]

/-- Claim C7 counterexample: a batch consisting of exactly one document
with an unsupported media type does raise an exception for the batch (the
HTTP 400 error), instead of reporting a skipped count. -/
theorem upload_unsupported_batch_error :
    (upload_resumes (fun _ => "p") (fun _ => "d") "u" 0
      [{ filename := "a.txt", content_type := "text/plain",
         content := [1, 2] }]
      { resumes := [], jobs := [], analyses := [], nextOid := 0 }).1 =
      Except.error 400 := rfl

/-- Claim C7 (amended): a document with an unsupported media type, empty
bytes, or size over the 10 MiB maximum never creates a CandidateDocument
and never aborts the rest of the batch — the batch outcome is exactly as
if the document were absent — and a successful batch response reports the
aggregate count of processed documents in its message (rejections are
reflected only through that count; a batch in which every document is
rejected reports failure rather than a success with a skipped count). -/
theorem upload_invalid_never_stored
    (xPdf xDocx : List Nat → String) (user : String) (now : Nat)
    (pre post : List UploadFile) (st : DBState) (f : UploadFile)
    (hbad : (f.content_type ≠ pdfType ∧ f.content_type ≠ docxType) ∨
      f.content = [] ∨ MAX_FILE_SIZE < f.content.length) :
    upload_resumes xPdf xDocx user now (pre ++ f :: post) st =
      upload_resumes xPdf xDocx user now (pre ++ post) st ∧
    (∀ resp,
      (upload_resumes xPdf xDocx user now (pre ++ f :: post) st).1 =
        Except.ok resp →
      resp.message = "Successfully processed " ++
        toString resp.resumes.length ++ " resume(s)") := by
  have hf : fileAccepted xPdf xDocx f = false := by
    rcases hbad with ⟨h1, h2⟩ | h | h
    · have e1 : (f.content_type == pdfType) = false :=
        beq_eq_false_iff_ne.mpr h1
      have e2 : (f.content_type == docxType) = false :=
        beq_eq_false_iff_ne.mpr h2
      simp [fileAccepted, e1, e2]
    · simp [fileAccepted, h]
    · have e3 : decide (f.content.length ≤ MAX_FILE_SIZE) = false :=
        decide_eq_false (Nat.not_le.mpr h)
      simp [fileAccepted, e3]
  constructor
  · unfold upload_resumes
    rw [uploadLoop_skip xPdf xDocx user now f hf]
  · intro resp hok
    by_cases hemp :
      (uploadLoop xPdf xDocx user now (pre ++ f :: post) st.nextOid).2.isEmpty
    · simp [upload_resumes, hemp] at hok
    · simp only [upload_resumes, hemp, if_false, Bool.false_eq_true,
        Except.ok.injEq] at hok
      rw [← hok]

/-- Witness for C5: a failing PDF in a batch with one good DOCX. -/
theorem upload_extraction_failure_witness :
    upload_resumes xFail xOk "u" 3 ([gDocx] ++ fPdf :: []) st0 =
      upload_resumes xFail xOk "u" 3 ([gDocx] ++ []) st0 ∧
    ((upload_resumes xFail xOk "u" 3 ([gDocx] ++ fPdf :: []) st0).1 =
        Except.error 400 ↔
      (upload_resumes xFail xOk "u" 3 ([gDocx] ++ fPdf :: []) st0).2.resumes =
        st0.resumes) :=
  upload_extraction_failure_skipped xFail xOk "u" 3 [gDocx] [] st0 fPdf
    (by decide)

/-- Witness for C10: the extractor succeeded and the marker is honest
document content, yet the document is rejected. -/
theorem upload_marker_text_witness :
    upload_resumes xLegit xOk "u" 3 [fPdf] st0 = (Except.error 400, st0) :=
  upload_marker_text_skipped xLegit xOk "u" 3 st0 fPdf (by decide)

/-- Witness for the amended C7: an unsupported-type file next to one good
DOCX. -/
theorem upload_invalid_witness :
    upload_resumes xOk xOk "u" 3 ([gDocx] ++ fTxt :: []) st0 =
      upload_resumes xOk xOk "u" 3 ([gDocx] ++ []) st0 ∧
    (∀ resp,
      (upload_resumes xOk xOk "u" 3 ([gDocx] ++ fTxt :: []) st0).1 =
        Except.ok resp →
      resp.message = "Successfully processed " ++
        toString resp.resumes.length ++ " resume(s)") :=
  upload_invalid_never_stored xOk xOk "u" 3 [gDocx] [] st0 fTxt
    (Or.inl ⟨by decide, by decide⟩)

/-- Claim C6: for a delete request whose id parses as an ObjectId: when a
document with that id exists but belongs to a different principal, the
operation reports Forbidden; when no document with that id exists, it
reports NotFound; and in both cases the stored state is unchanged. -/
theorem delete_resume_forbidden_or_notFound
    (user rid : String) (oid : Nat) (st : DBState)
    (hp : parseOid rid = some oid) :
    ((∃ r ∈ st.resumes, r.oid = oid) →
      (∀ r ∈ st.resumes, r.oid = oid → r.uploaded_by ≠ user) →
      delete_resume user rid st = (DeleteResult.forbidden, st)) ∧
    ((∀ r ∈ st.resumes, r.oid ≠ oid) →
      delete_resume user rid st = (DeleteResult.notFound, st)) := by
  constructor
  · rintro ⟨r0, hr0, hoid⟩ hown
    have h1 : st.resumes.any
        (fun r => r.oid == oid && r.uploaded_by == user) = false := by
      rw [List.any_eq_false]
      intro r hr
      simp only [Bool.and_eq_true, beq_iff_eq, not_and]
      intro hro hru
      exact hown r hr hro hru
    have h2 : st.resumes.any (fun r => r.oid == oid) = true := by
      rw [List.any_eq_true]
      exact ⟨r0, hr0, by simpa using hoid⟩
    simp [delete_resume, hp, h1, h2]
  · intro hno
    have h1 : st.resumes.any
        (fun r => r.oid == oid && r.uploaded_by == user) = false := by
      rw [List.any_eq_false]
      intro r hr
      simp only [Bool.and_eq_true, beq_iff_eq, not_and]
      intro hro
      exact absurd hro (hno r hr)
    have h2 : st.resumes.any (fun r => r.oid == oid) = false := by
      rw [List.any_eq_false]
      intro r hr
      simpa using hno r hr
    simp [delete_resume, hp, h1, h2]

/-- Witness for C6: caller "bob" deleting "alice"'s document (Forbidden)
and an absent document (NotFound); the state is untouched both times. -/
theorem delete_resume_witness :
    delete_resume "bob" hex5 stAlice = (DeleteResult.forbidden, stAlice) ∧
    delete_resume "bob" hex9 stAlice = (DeleteResult.notFound, stAlice) :=
  ⟨(delete_resume_forbidden_or_notFound "bob" hex5 5 stAlice (by decide)).1
      (by decide) (by decide),
   (delete_resume_forbidden_or_notFound "bob" hex9 9 stAlice (by decide)).2
      (by decide)⟩

/-- Stability of the stable sort under `scoreGE`: filtering the sorted
list by any predicate that only selects mutually tied entries returns
exactly the filtered unsorted list, in its original order. -/
theorem insertionSort_filter_tied (l : List RankedEntry)
    (p : RankedEntry → Bool)
    (hp : ∀ a b, p a = true → p b = true → scoreGE a b) :
    (l.insertionSort scoreGE).filter p = l.filter p := by
  have hpw : (l.filter p).Pairwise scoreGE :=
    List.pairwise_of_forall_mem_list (fun a ha b hb =>
      hp a b (List.mem_filter.mp ha).2 (List.mem_filter.mp hb).2)
  have hsub : List.Sublist (l.filter p) (l.insertionSort scoreGE) :=
    List.sublist_insertionSort hpw (List.filter_sublist l)
  have hself : (l.filter p).filter p = l.filter p :=
    List.filter_eq_self.mpr (fun a ha => (List.mem_filter.mp ha).2)
  have hsub2 : List.Sublist (l.filter p)
      ((l.insertionSort scoreGE).filter p) := by
    have h := hsub.filter p
    rwa [hself] at h
  have hperm : List.Perm ((l.insertionSort scoreGE).filter p)
      (l.filter p) :=
    (List.perm_insertionSort scoreGE l).filter p
  exact (hsub2.eq_of_length hperm.length_eq.symm).symm

/-- Claim C2: for every non-empty resolved candidate set, the ranking
produced by `analyze_job` is sorted non-increasing by similarity score,
and entries with equal scores keep their original resolution order: for
every score, filtering the ranking to that score yields exactly the
resolution-order subsequence (the sort is stable; no secondary tie-break
is applied). -/
theorem analyze_job_sorted_stable
    (cosine : String → String → Option ℚ) (user : String) (now : Nat)
    (req : JobRequest) (st : DBState)
    (hne : resolveCandidates st user req.resume_ids ≠ []) :
    ((analyze_job cosine user now req st).1.ranked_resumes).Pairwise
        scoreGE ∧
    ∀ s : ℚ,
      ((analyze_job cosine user now req st).1.ranked_resumes).filter
          (fun e => decide (e.similarity_score = s)) =
        (rankEntries cosine req
            (resolveCandidates st user req.resume_ids)).filter
          (fun e => decide (e.similarity_score = s)) := by
  have hr : (analyze_job cosine user now req st).1.ranked_resumes =
      (rankEntries cosine req
        (resolveCandidates st user req.resume_ids)).insertionSort
        scoreGE := rfl
  refine ⟨?_, ?_⟩
  · rw [hr]
    exact List.sorted_insertionSort scoreGE _
  · intro s
    rw [hr]
    refine insertionSort_filter_tied _ _ ?_
    intro a b ha hb
    have ha' := of_decide_eq_true ha
    have hb' := of_decide_eq_true hb
    unfold scoreGE
    rw [ha', hb']

/-- Witness for C2: two stored documents with tied scores. -/
theorem analyze_job_sorted_stable_witness :
    (((analyze_job cosOne "u" 7 reqNone stAB).1.ranked_resumes).Pairwise
        scoreGE) ∧
    (∀ s : ℚ,
      ((analyze_job cosOne "u" 7 reqNone stAB).1.ranked_resumes).filter
          (fun e => decide (e.similarity_score = s)) =
        (rankEntries cosOne reqNone
            (resolveCandidates stAB "u" reqNone.resume_ids)).filter
          (fun e => decide (e.similarity_score = s))) :=
  analyze_job_sorted_stable cosOne "u" 7 reqNone stAB (by decide)

/-- Claim C3 counterexample: with two stored documents and a
`candidateIdFilter` that is the empty list, the analysis ranks both
documents and persists a snapshot with two entries — the empty list is
treated like an absent filter, not as an empty candidate set. -/
theorem analyze_empty_filter_counterexample :
    ((analyze_job cosOne "u" 7
        { title := "t", description := "d", requirements := "q",
          resume_ids := some [] } stAB).1.ranked_resumes).length = 2 ∧
    ((analyze_job cosOne "u" 7
        { title := "t", description := "d", requirements := "q",
          resume_ids := some [] } stAB).2.analyses.map
      (fun a => a.ranked_resumes.length)) = [2] := ⟨rfl, rfl⟩

/-- Claim C3 (amended): a non-empty `candidateIdFilter` whose ids are all
invalid — unparsable as ObjectIds, or not the id of any document owned by
the caller — yields an empty ranking with no error and still persists an
`AnalysisSnapshot` whose entry sequence is empty; a `candidateIdFilter`
that is the empty list is instead treated like an absent filter and ranks
every document of the caller. -/
theorem analyze_all_invalid_filter_empty
    (cosine : String → String → Option ℚ) (user : String) (now : Nat)
    (title d q : String) (rids : List String) (st : DBState)
    (hne : rids ≠ [])
    (hinv : ∀ rid ∈ rids, ∀ r ∈ st.resumes,
      r.uploaded_by = user → parseOid rid ≠ some r.oid) :
    (analyze_job cosine user now
        { title := title, description := d, requirements := q,
          resume_ids := some rids } st).1.ranked_resumes = [] ∧
    (analyze_job cosine user now
        { title := title, description := d, requirements := q,
          resume_ids := some rids } st).2.analyses =
      st.analyses ++ [emptySnap user now st.nextOid] := by
  have hres : resolveCandidates st user (some rids) = [] := by
    show (if rids.isEmpty = true then
        st.resumes.filter (fun r => r.uploaded_by == user)
      else
        st.resumes.filter (fun r => r.uploaded_by == user &&
          (rids.filterMap parseOid).contains r.oid)) = []
    rw [if_neg (by simp [List.isEmpty_iff, hne])]
    rw [List.filter_eq_nil_iff]
    intro r hr
    simp only [Bool.and_eq_true, beq_iff_eq, not_and]
    intro hru hc
    obtain ⟨rid, hrid, hparse⟩ := List.mem_filterMap.mp (List.elem_iff.mp hc)
    exact hinv rid hrid r hr hru hparse
  have hr1 : (analyze_job cosine user now
      { title := title, description := d, requirements := q,
        resume_ids := some rids } st).1.ranked_resumes =
      (rankEntries cosine
        { title := title, description := d, requirements := q,
          resume_ids := some rids }
        (resolveCandidates st user (some rids))).insertionSort scoreGE :=
    rfl
  have hr2 : (analyze_job cosine user now
      { title := title, description := d, requirements := q,
        resume_ids := some rids } st).2.analyses =
      st.analyses ++
        [{ oid := st.nextOid + 1, job_id := st.nextOid,
           ranked_resumes := (rankEntries cosine
             { title := title, description := d, requirements := q,
               resume_ids := some rids }
             (resolveCandidates st user (some rids))).insertionSort
             scoreGE,
           analyzed_by := user, analyzed_at := now }] := rfl
  constructor
  · rw [hr1, hres]
    exact rfl
  · rw [hr2, hres]
    exact rfl

/-- Witness for the amended C3: one unparsable id and one well-formed id
matching no stored document. -/
theorem analyze_all_invalid_filter_witness :
    (analyze_job cosOne "u" 7
        { title := "t", description := "d", requirements := "q",
          resume_ids := some ["zz", hex9] } stAB).1.ranked_resumes = [] ∧
    (analyze_job cosOne "u" 7
        { title := "t", description := "d", requirements := "q",
          resume_ids := some ["zz", hex9] } stAB).2.analyses =
      stAB.analyses ++ [emptySnap "u" 7 stAB.nextOid] :=
  analyze_all_invalid_filter_empty cosOne "u" 7 "t" "d" "q" ["zz", hex9]
    stAB (by decide) (by decide)

/-- Claim C8: round trip — every item returned by the history operation
carries the ranking entries of a stored snapshot of the owner, projected
pointwise in their stored order (the read path maps entries in place and
never re-sorts them), and the snapshot persisted by `analyze_job` is
fetched back with its entries in exactly the order they were ranked at
creation time. -/
theorem history_entry_order_preserved
    (cosine : String → String → Option ℚ) (user : String) (now : Nat)
    (req : JobRequest) (st : DBState) :
    (∀ h ∈ get_analysis_history user st,
      ∃ a ∈ st.analyses, a.analyzed_by = user ∧
        h.rankedResumes = a.ranked_resumes.map projectEntry) ∧
    (∃ h ∈ get_analysis_history user (analyze_job cosine user now req st).2,
      h.rankedResumes =
        ((analyze_job cosine user now req st).1.ranked_resumes).map
          projectEntry) := by
  constructor
  · intro h hh
    unfold get_analysis_history at hh
    rw [List.mem_map] at hh
    obtain ⟨a, ha, hfa⟩ := hh
    rw [List.mem_insertionSort] at ha
    have hmem := List.mem_filter.mp ha
    refine ⟨a, hmem.1, by simpa using hmem.2, ?_⟩
    rw [← hfa]
  · have hei : (analyze_job cosine user now req st).2.analyses =
        st.analyses ++ [newSnap cosine user now req st] := rfl
    have hsnapmem : newSnap cosine user now req st ∈
        ((analyze_job cosine user now req st).2.analyses.filter
          (fun a => a.analyzed_by == user)).insertionSort newerFirst := by
      rw [List.mem_insertionSort, List.mem_filter]
      refine ⟨?_, by simp [newSnap]⟩
      rw [hei]
      exact List.mem_append_right _ (List.mem_singleton_self _)
    unfold get_analysis_history
    exact ⟨_, List.mem_map_of_mem _ hsnapmem, rfl⟩

/-- Witness for C8: a stored two-entry snapshot read back through the
history operation, and a fresh analysis on the same state. -/
theorem history_entry_order_witness :
    (∃ a ∈ stH.analyses, a.analyzed_by = "u" ∧
      hEnt.rankedResumes = a.ranked_resumes.map projectEntry) ∧
    (∃ h ∈ get_analysis_history "u" (analyze_job cosOne "u" 7 reqNone stH).2,
      h.rankedResumes =
        ((analyze_job cosOne "u" 7 reqNone stH).1.ranked_resumes).map
          projectEntry) :=
  ⟨(history_entry_order_preserved cosOne "u" 7 reqNone stH).1 hEnt
      (by decide),
   (history_entry_order_preserved cosOne "u" 7 reqNone stH).2⟩

end ResumeManager
